import Mathlib

/-!
Verification of the link-discovery, classification, filename-derivation and
download core of script_finder.py (classes ScanWorker and DownloadWorker).

The Python string operations are modelled by structurally recursive functions
over lists of characters so that every definition evaluates by kernel
reduction.  Notes on the embedding:

* urllib.parse.urlparse is modelled for its path component only
  (fragment split, query split, scheme and network-location removal,
  parameter split on the last segment), which is the only component the
  source reads.
* urllib.parse.unquote is modelled as byte-level percent-decoding; Python
  additionally reassembles UTF-8 multi-byte sequences, which no claim
  depends on.
* Python character classes (str.lower, regex word characters) are modelled
  on ASCII.
* urllib.parse.urljoin and the HTTP session are external services of the
  two workers; they enter the model as an environment record holding a
  resolver function and a fetch function, where a fetch yields either an
  exception (Except.error) or a response carrying a status code, the parsed
  anchor list of the body, and the raw body.
* The Python found_pdfs set is modelled as a duplicate-free list built by
  insert-if-absent; only membership in the final collection matters to the
  spec, never order.
-/

/-- needle is a leading block of hay (decidable, structural). -/
def startsList : List Char → List Char → Bool
  | [], _ => true
  | _ :: _, [] => false
  | a :: as, b :: bs => a = b && startsList as bs

/-- needle occurs contiguously somewhere in hay (Python "in" on str). -/
def occursIn (needle : List Char) : List Char → Bool
  | [] => startsList needle []
  | c :: rest => startsList needle (c :: rest) || occursIn needle rest

/-- Python str "in" operator: hay contains needle. -/
def strContains (hay needle : String) : Bool := occursIn needle.data hay.data

/-- Python str.endswith. -/
def strEndsWith (s suf : String) : Bool := startsList suf.data.reverse s.data.reverse

/-- Python str.lower (ASCII model). -/
def toLowerStr (s : String) : String := ⟨s.data.map Char.toLower⟩

/-- Python str.split on a single-character separator. -/
def splitChar (sep : Char) : List Char → List (List Char)
  | [] => [[]]
  | c :: rest =>
    if c = sep then [] :: splitChar sep rest
    else
      match splitChar sep rest with
      | [] => [[c]]
      | h :: t => (c :: h) :: t

/-- Everything before the first number sign, as urlsplit removes the fragment. -/
def dropFrag (cs : List Char) : List Char := cs.takeWhile (fun c => c ≠ '#')

/-- Everything before the first question mark, as urlsplit removes the query. -/
def dropQuery (cs : List Char) : List Char := cs.takeWhile (fun c => c ≠ '?')

/-- Drop through the first scheme separator, when one occurs. -/
def afterSchemeSep : List Char → Option (List Char)
  | [] => none
  | ':' :: '/' :: '/' :: rest => some rest
  | _ :: rest => afterSchemeSep rest

/-- urlparse parameter handling: cut the last path segment at its first
semicolon. -/
def stripParams (cs : List Char) : List Char :=
  let lastSeg := (cs.reverse.takeWhile (fun c => c ≠ '/')).reverse
  let stem := cs.take (cs.length - lastSeg.length)
  stem ++ lastSeg.takeWhile (fun c => c ≠ ';')

/-- Path component of urllib.parse.urlparse: remove fragment, query, scheme
with network location, and trailing-segment parameters. -/
def urlparsePathChars (cs : List Char) : List Char :=
  let cs1 := dropQuery (dropFrag cs)
  let cs2 :=
    match afterSchemeSep cs1 with
    | some rest => rest.dropWhile (fun c => c ≠ '/')
    | none => cs1
  stripParams cs2

/-- urllib.parse.urlparse(url).path. -/
def urlparse_path (url : String) : String := ⟨urlparsePathChars url.data⟩

/-- One hexadecimal digit, as unquote reads them. -/
def hexDigit (c : Char) : Option Nat :=
  if '0' ≤ c ∧ c ≤ '9' then some (c.toNat - 48)
  else if 'a' ≤ c ∧ c ≤ 'f' then some (c.toNat - 87)
  else if 'A' ≤ c ∧ c ≤ 'F' then some (c.toNat - 55)
  else none

/-- urllib.parse.unquote, byte level: each valid percent escape becomes the
character with that code, invalid escapes stay verbatim. -/
def percentDecode : List Char → List Char
  | [] => []
  | '%' :: a :: b :: rest2 =>
    (match hexDigit a, hexDigit b with
     | some x, some y => [Char.ofNat (16 * x + y)] ++ percentDecode rest2
     | _, _ => ['%'] ++ percentDecode (a :: b :: rest2))
  | '%' :: rest => '%' :: percentDecode rest
  | c :: rest => c :: percentDecode rest

/-- urllib.parse.unquote on a string. -/
def unquoteStr (s : String) : String := ⟨percentDecode s.data⟩

/-- The fixed allow-list of known script hosting domains
(script_finder.py lines 170 to 177). -/
def script_pdf_domains : List String :=
  ["assets.scriptslug.com", "scriptslug.com/live/pdf", "dailyscript.com",
   "imsdb.com", "screenplaydb.com", "scriptpdf.com"]

/-- ScanWorker._is_pdf_link (script_finder.py lines 152 to 186): the five
classification rules, first match wins, written as the equivalent
left-to-right disjunction. -/
def is_pdf_link (url href : String) : Bool :=
  let url_lower := toLowerStr url
  let href_lower := toLowerStr href
  let path := urlparse_path url_lower
  strEndsWith path ".pdf"
  || (strEndsWith href_lower ".pdf" || strContains href_lower ".pdf?"
      || strContains href_lower ".pdf#")
  || (strContains path "/pdf/" || strContains path "/pdfs/")
  || (script_pdf_domains.any (fun d => strContains url_lower d)
      && (strContains url_lower "pdf" || strEndsWith path ".pdf"))
  || (strContains url_lower "download" && strContains url_lower "pdf")

/-- ScanWorker._matches_filter (script_finder.py lines 188 to 193).  The
anchor text argument is passed by the scan loop already lowercased. -/
def matches_filter (filter_text url link_text : String) : Bool :=
  if filter_text = "" then true
  else strContains (toLowerStr url ++ " " ++ link_text) filter_text

/-- The percent-decoded path the filename deriver works on
(script_finder.py lines 197 to 198). -/
def extract_path (url : String) : String := unquoteStr (urlparse_path url)

/-- os.path.basename of the decoded path (script_finder.py line 199). -/
def url_basename (url : String) : String :=
  ⟨(splitChar '/' (extract_path url).data).getLast?.getD []⟩

/-- The non-empty path segments of the decoded path
(script_finder.py line 207). -/
def path_parts (url : String) : List String :=
  ((splitChar '/' (extract_path url).data).map
    (fun cs => (⟨cs⟩ : String))).filter (fun p => p ≠ "")

/-- One character of the re.sub cleanup: word characters, hyphen, underscore
and dot survive, everything else becomes an underscore
(script_finder.py line 211). -/
def sanitizeChar (c : Char) : Char :=
  if c.isAlphanum || c = '_' || c = '-' || c = '.' then c else '_'

/-- re.sub of the disallowed-character class with an underscore. -/
def sanitize (s : String) : String := ⟨s.data.map sanitizeChar⟩

/-- ScanWorker._extract_filename (script_finder.py lines 195 to 217). -/
def extract_filename (url : String) : String :=
  let fn0 := url_basename url
  let fn1 := if strContains fn0 "?" then ⟨fn0.data.takeWhile (fun c => c ≠ '?')⟩ else fn0
  if fn1 = "" ∨ strEndsWith fn1 ".pdf" = false then
    match (path_parts url).getLast? with
    | some base_name =>
      let f := sanitize base_name
      if strEndsWith f ".pdf" then f else f ++ ".pdf"
    | none => "script.pdf"
  else fn1

/-- A hyperlink as BeautifulSoup yields it: the raw href attribute and the
anchor text. -/
structure Link where
  href : String
  text : String
deriving DecidableEq

/-- An HTTP response as the workers consume it: the status code, the parsed
anchor list of the body, and the raw body. -/
structure HttpResponse where
  status : Nat
  links : List Link
  content : String
deriving DecidableEq

/-- The external services the workers call: urljoin and session.get.  A fetch
returns an exception (network error, timeout) or a response. -/
structure FetchEnv where
  resolve : String → String → String
  fetch : String → Except String HttpResponse

/-- True when requests.Response.raise_for_status would raise (4xx or 5xx). -/
def statusBad (r : HttpResponse) : Bool := 400 ≤ r.status && r.status < 600

/-- requests.Response.raise_for_status. -/
def raiseForStatus (r : HttpResponse) : Except String HttpResponse :=
  if statusBad r then Except.error ("HTTP error " ++ toString r.status) else Except.ok r

/-- An observable emission of a worker: a log line, the completion payload,
or the error payload. -/
inductive Event where
  | log (msg : String)
  | complete (results : List (String × String))
  | error (msg : String)
deriving DecidableEq

/-- Python set.add on the found_pdfs collection: membership-based insert. -/
def insertPdf (s : List (String × String)) (x : String × String) : List (String × String) :=
  if x ∈ s then s else s ++ [x]

/-- The scan keyword list (script_finder.py lines 94 to 97). -/
def script_keywords : List String :=
  ["script", "screenplay", "teleplay", "pilot", "episode",
   "transcript", "draft", "shooting", "final"]

/-- One character of a pattern slug: regex word character or hyphen. -/
def isSlugChar (c : Char) : Bool := c.isAlphanum || c = '_' || c = '-'

/-- The pattern slash-name-slash followed by at least one slug character
begins here. -/
def segSlugAt (seg : List Char) (cs : List Char) : Bool :=
  startsList seg cs &&
    (match cs.drop seg.length with
     | c :: _ => isSlugChar c
     | [] => false)

/-- re.search of slash-name-slash-slug anywhere in the character list. -/
def hasSegSlug (seg : List Char) : List Char → Bool
  | [] => false
  | c :: rest => segSlugAt seg (c :: rest) || hasSegSlug seg rest

/-- The four script-detail-page regular expressions
(script_finder.py lines 100 to 105), searched on the raw href. -/
def is_script_page (href : String) : Bool :=
  ["script", "scripts", "screenplay", "screenplays"].any
    (fun name => hasSegSlug ("/" ++ name ++ "/").data href.data)

/-- The keyword test on lowercase anchor text and lowercase href
(script_finder.py lines 122 to 124). -/
def isScriptLink (l : Link) : Bool :=
  script_keywords.any
    (fun kw => strContains (toLowerStr l.text ++ " " ++ toLowerStr l.href) kw)

/-- The running state of one scan: the found set, the emitted events in
order, and the secondary URLs given to session.get in order. -/
structure ScanState where
  found : List (String × String)
  events : List Event
  subFetches : List String
deriving DecidableEq

/-- One anchor of a followed sub-page (script_finder.py lines 133 to 143):
skip empty hrefs, resolve, classify, filter, add. -/
def subStep (env : FetchEnv) (filter_text sub_base : String)
    (acc : List (String × String)) (sl : Link) : List (String × String) :=
  if sl.href = "" then acc
  else
    let su := env.resolve sub_base sl.href
    if is_pdf_link su sl.href then
      if matches_filter filter_text su (toLowerStr sl.text) then
        insertPdf acc (extract_filename su, su)
      else acc
    else acc

/-- All anchors of a followed sub-page in order. -/
def scanSubPage (env : FetchEnv) (filter_text sub_base : String)
    (subLinks : List Link) (found : List (String × String)) : List (String × String) :=
  subLinks.foldl (subStep env filter_text sub_base) found

/-- One anchor of the primary page (script_finder.py lines 107 to 145):
skip empty hrefs, resolve, classify; a PDF passing the filter joins the found
set; otherwise, when following is enabled and the keyword or pattern test
holds, fetch the sub-page once — an exception is logged and skipped, a
response is scanned whatever its status. -/
def processLink (env : FetchEnv) (base filter_text : String) (follow_links : Bool)
    (st : ScanState) (l : Link) : ScanState :=
  if l.href = "" then st
  else
    let full_url := env.resolve base l.href
    if is_pdf_link full_url l.href then
      if matches_filter filter_text full_url (toLowerStr l.text) then
        { st with found := insertPdf st.found (extract_filename full_url, full_url) }
      else st
    else if follow_links then
      if isScriptLink l || is_script_page l.href then
        match env.fetch full_url with
        | Except.ok r =>
            { found := scanSubPage env filter_text full_url r.links st.found,
              events := st.events ++ [Event.log "Following link"],
              subFetches := st.subFetches ++ [full_url] }
        | Except.error e =>
            { st with
              events := st.events ++
                [Event.log "Following link", Event.log ("Could not follow link: " ++ e)],
              subFetches := st.subFetches ++ [full_url] }
      else st
    else st

/-- ScanWorker.run (script_finder.py lines 75 to 150), plain-fetch mode: the
primary fetch with raise_for_status inside the outer try, then the link loop,
then the completion emission; any primary failure reaches the outer except
and emits exactly the error. -/
def runScan (env : FetchEnv) (url filter_text : String) (follow_links : Bool) : ScanState :=
  match env.fetch url with
  | Except.error e => { found := [], events := [Event.error e], subFetches := [] }
  | Except.ok r0 =>
    match raiseForStatus r0 with
    | Except.error e => { found := [], events := [Event.error e], subFetches := [] }
    | Except.ok r =>
      let st0 : ScanState :=
        { found := [],
          events := [Event.log ("Found " ++ toString r.links.length ++ " links on page")],
          subFetches := [] }
      let st := r.links.foldl (processLink env url filter_text follow_links) st0
      { st with events := st.events ++ [Event.complete st.found] }

/-- os.path.join inside the download directory. -/
def joinPath (dir name : String) : String := dir ++ "/" ++ name

/-- The index below which os.path.splitext cuts the extension: the last dot
preceded by some non-dot character of the name. -/
def extSplitIdx (cs : List Char) : Option Nat :=
  ((List.range cs.length).filter
    (fun i => cs.getD i ' ' = '.' && (cs.take i).any (fun c => c ≠ '.'))).getLast?

/-- os.path.splitext on a bare filename. -/
def splitext (s : String) : String × String :=
  match extSplitIdx s.data with
  | some i => (⟨s.data.take i⟩, ⟨s.data.drop i⟩)
  | none => (s, "")

/-- The collision loop (script_finder.py lines 248 to 252): try base_1,
base_2, and so on until the path is free.  The fuel argument exceeds the
number of occupied paths, so the loop always ends inside the fuel. -/
def freePath (paths : List String) (dir base ext : String) : Nat → Nat → String
  | 0, k => joinPath dir (base ++ "_" ++ toString k ++ ext)
  | fuel + 1, k =>
    let p := joinPath dir (base ++ "_" ++ toString k ++ ext)
    if p ∈ paths then freePath paths dir base ext fuel (k + 1) else p

/-- Collision-safe target path (script_finder.py lines 246 to 252). -/
def resolvePath (paths : List String) (dir filename : String) : String :=
  let fp := joinPath dir filename
  if fp ∈ paths then
    let be := splitext filename
    freePath paths dir be.1 be.2 (paths.length + 1) 1
  else fp

/-- The running state of one download batch: written files as a path-content
association in write order, the per-row status emissions in order, and the
success count. -/
structure DlState where
  fs : List (String × String)
  statuses : List (Nat × String)
  success : Nat
deriving DecidableEq

/-- One download item (script_finder.py lines 238 to 263): status emission,
fetch with raise_for_status, collision-safe path, full body write, status
emission; any exception marks the row failed and the batch continues. -/
def dlStep (env : FetchEnv) (dir : String) (st : DlState)
    (item : Nat × String × String) : DlState :=
  let row := item.1
  let filename := item.2.1
  let url := item.2.2
  let st1 : DlState := { st with statuses := st.statuses ++ [(row, "Downloading...")] }
  match env.fetch url with
  | Except.error _ => { st1 with statuses := st1.statuses ++ [(row, "Failed")] }
  | Except.ok r =>
    if statusBad r then { st1 with statuses := st1.statuses ++ [(row, "Failed")] }
    else
      let fp := resolvePath (st1.fs.map Prod.fst) dir filename
      { fs := st1.fs ++ [(fp, r.content)],
        statuses := st1.statuses ++ [(row, "Downloaded")],
        success := st1.success + 1 }

/-- DownloadWorker.run (script_finder.py lines 233 to 266) into an initially
empty directory. -/
def runDownload (env : FetchEnv) (items : List (Nat × String × String))
    (dir : String) : DlState :=
  items.foldl (dlStep env dir) { fs := [], statuses := [], success := 0 }

/-- The final download_complete emission: success count and total count. -/
def downloadSummary (env : FetchEnv) (items : List (Nat × String × String))
    (dir : String) : Nat × Nat :=
  ((runDownload env items dir).success, items.length)

/-- The state the scan loop starts from after a successful primary fetch. -/
def scanInit (r0 : HttpResponse) : ScanState :=
  { found := [],
    events := [Event.log ("Found " ++ toString r0.links.length ++ " links on page")],
    subFetches := [] }

theorem startsList_self_append (l m : List Char) : startsList l (l ++ m) = true := by
  induction l with
  | nil => rfl
  | cons a t ih => simp [startsList, ih]

theorem strEndsWith_append (s t : String) : strEndsWith (s ++ t) t = true := by
  show startsList t.data.reverse ((s ++ t).data).reverse = true
  have h : (s ++ t).data = s.data ++ t.data := rfl
  rw [h, List.reverse_append]
  exact startsList_self_append _ _

theorem url_basename_eq_empty (url : String) (hp : path_parts url = []) :
    url_basename url = "" := by
  unfold url_basename
  cases hl : (splitChar '/' (extract_path url).data).getLast? with
  | none => rfl
  | some cs =>
    have hmem : cs ∈ splitChar '/' (extract_path url).data := List.mem_of_mem_getLast? hl
    have hmem2 : (⟨cs⟩ : String) ∈
        (splitChar '/' (extract_path url).data).map (fun cs => (⟨cs⟩ : String)) :=
      List.mem_map_of_mem _ hmem
    have hempty := (List.filter_eq_nil_iff.mp hp) _ hmem2
    simp only [ne_eq, decide_not, Bool.not_eq_true', decide_eq_false_iff_not,
      Decidable.not_not] at hempty
    simp [hempty]

/-- C1: every URL whose path ends in ".pdf" case-insensitively — that is,
the urlparse path of the lowercased URL ends in ".pdf", query string and
fragment having been stripped by urlparse — is classified as a PDF link. -/
theorem pdf_suffix_is_pdf_link (url href : String)
    (h : strEndsWith (urlparse_path (toLowerStr url)) ".pdf" = true) :
    is_pdf_link url href = true := by
  simp only [is_pdf_link]
  rw [h]
  simp

/-- C1 witness: an uppercase .PDF path with query and fragment. -/
theorem pdf_suffix_is_pdf_link_witness :
    strEndsWith (urlparse_path (toLowerStr "https://Example.com/A/B.PDF?v=1#frag")) ".pdf"
      = true
    ∧ is_pdf_link "https://Example.com/A/B.PDF?v=1#frag" "/A/B.PDF?v=1" = true :=
  ⟨by decide, pdf_suffix_is_pdf_link _ _ (by decide)⟩

/-- C2: every href whose resolved URL has a path containing "/pdf/" or
"/pdfs/" is classified as a PDF link, whatever the rest of the URL. -/
theorem pdf_segment_is_pdf_link (url href : String)
    (h : (strContains (urlparse_path (toLowerStr url)) "/pdf/"
       || strContains (urlparse_path (toLowerStr url)) "/pdfs/") = true) :
    is_pdf_link url href = true := by
  simp only [is_pdf_link]
  rw [Bool.or_eq_true] at h
  rcases h with h1 | h1 <;> simp [h1]

/-- C2 witness: a /pdfs/ segment without any .pdf suffix. -/
theorem pdf_segment_is_pdf_link_witness :
    (strContains (urlparse_path (toLowerStr "https://a.com/pdfs/view?id=1")) "/pdf/"
      || strContains (urlparse_path (toLowerStr "https://a.com/pdfs/view?id=1")) "/pdfs/")
      = true
    ∧ is_pdf_link "https://a.com/pdfs/view?id=1" "/pdfs/view?id=1" = true :=
  ⟨by decide, pdf_segment_is_pdf_link _ _ (by decide)⟩

/-- C3: when no other classification rule fires (no .pdf ending on the href,
no /pdf/ or /pdfs/ path segment, no download-and-pdf substrings), a URL
matching the known-domain allow-list is classified as a PDF exactly when it
also contains the substring "pdf" somewhere or its path ends in ".pdf" —
allow-list membership alone never suffices. -/
theorem known_domain_conjunctive (url href : String)
    (h2a : strEndsWith (toLowerStr href) ".pdf" = false)
    (h2b : strContains (toLowerStr href) ".pdf?" = false)
    (h2c : strContains (toLowerStr href) ".pdf#" = false)
    (h3a : strContains (urlparse_path (toLowerStr url)) "/pdf/" = false)
    (h3b : strContains (urlparse_path (toLowerStr url)) "/pdfs/" = false)
    (h5 : (strContains (toLowerStr url) "download"
           && strContains (toLowerStr url) "pdf") = false)
    (hd : script_pdf_domains.any (fun d => strContains (toLowerStr url) d) = true) :
    is_pdf_link url href
      = (strContains (toLowerStr url) "pdf"
         || strEndsWith (urlparse_path (toLowerStr url)) ".pdf") := by
  simp only [is_pdf_link, h2a, h2b, h2c, h3a, h3b, h5, hd]
  cases hx : strEndsWith (urlparse_path (toLowerStr url)) ".pdf" <;>
    cases hy : strContains (toLowerStr url) "pdf" <;> simp

/-- C3 witness: an allow-list URL without any pdf indication is rejected. -/
theorem known_domain_conjunctive_witness :
    script_pdf_domains.any
      (fun d => strContains (toLowerStr "https://imsdb.com/page.html") d) = true
    ∧ is_pdf_link "https://imsdb.com/page.html" "page.html"
        = (strContains (toLowerStr "https://imsdb.com/page.html") "pdf"
           || strEndsWith (urlparse_path (toLowerStr "https://imsdb.com/page.html")) ".pdf")
    ∧ is_pdf_link "https://imsdb.com/page.html" "page.html" = false :=
  ⟨by decide,
   known_domain_conjunctive _ _ (by decide) (by decide) (by decide) (by decide)
     (by decide) (by decide) (by decide),
   by decide⟩

theorem rebuild_ends (b : String) :
    strEndsWith (if strEndsWith (sanitize b) ".pdf" = true then sanitize b
                 else sanitize b ++ ".pdf") ".pdf" = true := by
  split
  · assumption
  · exact strEndsWith_append _ ".pdf"

/-- C4: the filename deriver always produces a name ending in ".pdf", and
when the decoded path has no non-empty segment it produces the literal
fallback "script.pdf". -/
theorem extract_filename_pdf_suffix (url : String) :
    strEndsWith (extract_filename url) ".pdf" = true
    ∧ (path_parts url = [] → extract_filename url = "script.pdf") := by
  have hs : strEndsWith "script.pdf" ".pdf" = true := by decide
  constructor
  · unfold extract_filename
    split
    · dsimp only
      split
      · split
        · exact rebuild_ends _
        · rename_i hcond
          rcases not_or.mp hcond with ⟨-, hend⟩
          exact eq_true_of_ne_false hend
      · split
        · exact rebuild_ends _
        · rename_i hcond
          rcases not_or.mp hcond with ⟨-, hend⟩
          exact eq_true_of_ne_false hend
    · dsimp only
      split
      · split
        · exact hs
        · rename_i hcond
          rcases not_or.mp hcond with ⟨-, hend⟩
          exact eq_true_of_ne_false hend
      · split
        · exact hs
        · rename_i hcond
          rcases not_or.mp hcond with ⟨-, hend⟩
          exact eq_true_of_ne_false hend
  · intro hp
    have hb := url_basename_eq_empty url hp
    unfold extract_filename
    rw [hb, hp]
    have hq : strContains "" "?" = false := rfl
    simp [hq]

/-- C4 witness: a URL with an empty path takes the literal fallback. -/
theorem extract_filename_pdf_suffix_witness :
    strEndsWith (extract_filename "https://a.com") ".pdf" = true
    ∧ path_parts "https://a.com" = []
    ∧ extract_filename "https://a.com" = "script.pdf" :=
  ⟨(extract_filename_pdf_suffix "https://a.com").1, by decide,
   (extract_filename_pdf_suffix "https://a.com").2 (by decide)⟩

/-- C5 counterexample: the filter "com hel" occurs in neither the lowercase
URL "x.com" nor the anchor text "hello", yet the matcher accepts, because the
filter spans the space the matcher puts between the two. -/
theorem filter_neither_side_counterexample :
    matches_filter "com hel" "x.COM" "hello" = true
    ∧ strContains (toLowerStr "x.COM") "com hel" = false
    ∧ strContains (toLowerStr "hello") "com hel" = false := by
  decide

/-- C5 amended: the matcher with an empty filter accepts every candidate;
with a non-empty filter it accepts exactly when the filter occurs in the
concatenation of the lowercase URL, one space, and the anchor text (which
the scan loop passes already lowercased) — so a filter spanning the space
boundary is accepted although neither part alone contains it. -/
theorem matches_filter_amended (f url t : String) :
    matches_filter "" url t = true
    ∧ (f ≠ "" → strContains (toLowerStr url ++ " " ++ t) f = false →
        matches_filter f url t = false)
    ∧ (f ≠ "" → strContains (toLowerStr url ++ " " ++ t) f = true →
        matches_filter f url t = true) := by
  refine ⟨by simp [matches_filter], ?_, ?_⟩ <;>
    intro hf hc <;> simp [matches_filter, hf, hc]

/-- C5 witness: the amended statement at the counterexample input. -/
theorem matches_filter_amended_witness :
    matches_filter "" "x.COM" "hello" = true
    ∧ matches_filter "com hel" "x.COM" "hello" = true :=
  ⟨(matches_filter_amended "com hel" "x.COM" "hello").1,
   (matches_filter_amended "com hel" "x.COM" "hello").2.2 (by decide) (by decide)⟩

theorem insertPdf_mem_self (s : List (String × String)) (x : String × String) :
    x ∈ insertPdf s x := by
  unfold insertPdf
  split
  · assumption
  · simp

theorem insertPdf_mem_mono (s : List (String × String)) (x y : String × String)
    (h : x ∈ s) : x ∈ insertPdf s y := by
  unfold insertPdf
  split
  · exact h
  · exact List.mem_append_left _ h

theorem subStep_found_mono (env : FetchEnv) (f sb : String)
    (acc : List (String × String)) (sl : Link) (x : String × String)
    (h : x ∈ acc) : x ∈ subStep env f sb acc sl := by
  unfold subStep
  split
  · exact h
  · dsimp only
    split
    · split
      · exact insertPdf_mem_mono _ _ _ h
      · exact h
    · exact h

theorem scanSubPage_found_mono (env : FetchEnv) (f sb : String)
    (ls : List Link) (acc : List (String × String)) (x : String × String)
    (h : x ∈ acc) : x ∈ scanSubPage env f sb ls acc := by
  induction ls generalizing acc with
  | nil => exact h
  | cons a t ih => exact ih _ (subStep_found_mono env f sb acc a x h)

theorem scanSubPage_adds (env : FetchEnv) (f sb : String) (ls : List Link)
    (acc : List (String × String)) (sl : Link) (h : sl ∈ ls) (hh : sl.href ≠ "")
    (hp : is_pdf_link (env.resolve sb sl.href) sl.href = true)
    (hm : matches_filter f (env.resolve sb sl.href) (toLowerStr sl.text) = true) :
    (extract_filename (env.resolve sb sl.href), env.resolve sb sl.href)
      ∈ scanSubPage env f sb ls acc := by
  induction ls generalizing acc with
  | nil => cases h
  | cons a t ih =>
    rcases List.mem_cons.mp h with rfl | h2
    · refine scanSubPage_found_mono env f sb t (subStep env f sb acc sl) _ ?_
      unfold subStep
      simp [hh, hp, hm, insertPdf_mem_self]
    · exact ih _ h2

theorem processLink_found_mono (env : FetchEnv) (b f : String) (fl : Bool)
    (st : ScanState) (l : Link) (x : String × String) (h : x ∈ st.found) :
    x ∈ (processLink env b f fl st l).found := by
  unfold processLink
  split
  · exact h
  · dsimp only
    split
    · split
      · exact insertPdf_mem_mono _ _ _ h
      · exact h
    · split
      · split
        · split
          · exact scanSubPage_found_mono _ _ _ _ _ _ h
          · exact h
        · exact h
      · exact h

theorem foldl_found_mono (env : FetchEnv) (b f : String) (fl : Bool)
    (ls : List Link) (st : ScanState) (x : String × String) (h : x ∈ st.found) :
    x ∈ (ls.foldl (processLink env b f fl) st).found := by
  induction ls generalizing st with
  | nil => exact h
  | cons a t ih => exact ih _ (processLink_found_mono env b f fl st a x h)

theorem processLink_events_extend (env : FetchEnv) (b f : String) (fl : Bool)
    (st : ScanState) (l : Link) :
    ∃ es, (processLink env b f fl st l).events = st.events ++ es
      ∧ ∀ m, Event.error m ∉ es := by
  unfold processLink
  split
  · exact ⟨[], by simp⟩
  · dsimp only
    split
    · split
      · exact ⟨[], by simp⟩
      · exact ⟨[], by simp⟩
    · split
      · split
        · split
          · exact ⟨[Event.log "Following link"], rfl, by simp⟩
          · exact ⟨[Event.log "Following link",
              Event.log ("Could not follow link: " ++ _)], rfl, by simp⟩
        · exact ⟨[], by simp⟩
      · exact ⟨[], by simp⟩

theorem foldl_events_extend (env : FetchEnv) (b f : String) (fl : Bool)
    (ls : List Link) (st : ScanState) :
    ∃ es, (ls.foldl (processLink env b f fl) st).events = st.events ++ es
      ∧ ∀ m, Event.error m ∉ es := by
  induction ls generalizing st with
  | nil => exact ⟨[], by simp⟩
  | cons a t ih =>
    obtain ⟨es1, he1, hn1⟩ := processLink_events_extend env b f fl st a
    obtain ⟨es2, he2, hn2⟩ := ih (processLink env b f fl st a)
    refine ⟨es1 ++ es2, ?_, ?_⟩
    · rw [List.foldl_cons, he2, he1, List.append_assoc]
    · intro m hm
      rcases List.mem_append.mp hm with hx | hx
      · exact hn1 m hx
      · exact hn2 m hx

theorem foldl_events_mem_mono (env : FetchEnv) (b f : String) (fl : Bool)
    (ls : List Link) (st : ScanState) (ev : Event) (h : ev ∈ st.events) :
    ev ∈ (ls.foldl (processLink env b f fl) st).events := by
  obtain ⟨es, he, -⟩ := foldl_events_extend env b f fl ls st
  rw [he]
  exact List.mem_append_left _ h

theorem foldl_adds_pdf (env : FetchEnv) (b f : String) (fl : Bool)
    (ls : List Link) (st : ScanState) (l : Link) (h : l ∈ ls) (hh : l.href ≠ "")
    (hp : is_pdf_link (env.resolve b l.href) l.href = true)
    (hm : matches_filter f (env.resolve b l.href) (toLowerStr l.text) = true) :
    (extract_filename (env.resolve b l.href), env.resolve b l.href)
      ∈ (ls.foldl (processLink env b f fl) st).found := by
  induction ls generalizing st with
  | nil => cases h
  | cons a t ih =>
    rcases List.mem_cons.mp h with rfl | h2
    · refine foldl_found_mono env b f fl t (processLink env b f fl st l) _ ?_
      unfold processLink
      simp [hh, hp, hm, insertPdf_mem_self]
    · exact ih _ h2

theorem foldl_adds_sub (env : FetchEnv) (b f : String)
    (ls : List Link) (st : ScanState) (l : Link) (h : l ∈ ls) (hh : l.href ≠ "")
    (hnp : is_pdf_link (env.resolve b l.href) l.href = false)
    (hfc : (isScriptLink l || is_script_page l.href) = true)
    (r : HttpResponse) (hok : env.fetch (env.resolve b l.href) = Except.ok r)
    (sl : Link) (hsl : sl ∈ r.links) (hslh : sl.href ≠ "")
    (hslp : is_pdf_link (env.resolve (env.resolve b l.href) sl.href) sl.href = true)
    (hslm : matches_filter f (env.resolve (env.resolve b l.href) sl.href)
              (toLowerStr sl.text) = true) :
    (extract_filename (env.resolve (env.resolve b l.href) sl.href),
     env.resolve (env.resolve b l.href) sl.href)
      ∈ (ls.foldl (processLink env b f true) st).found := by
  induction ls generalizing st with
  | nil => cases h
  | cons a t ih =>
    rcases List.mem_cons.mp h with rfl | h2
    · refine foldl_found_mono env b f true t (processLink env b f true st l) _ ?_
      unfold processLink
      simp only [hh, hnp, hfc, hok, ite_true, ite_false, if_neg, not_false_eq_true]
      simp [hh, hnp, hfc, hok]
      exact scanSubPage_adds env f _ r.links st.found sl hsl hslh hslp hslm
    · exact ih _ h2

theorem foldl_fail_log (env : FetchEnv) (b f : String)
    (ls : List Link) (st : ScanState) (l : Link) (e : String) (h : l ∈ ls)
    (hh : l.href ≠ "") (hnp : is_pdf_link (env.resolve b l.href) l.href = false)
    (hfc : (isScriptLink l || is_script_page l.href) = true)
    (herr : env.fetch (env.resolve b l.href) = Except.error e) :
    Event.log ("Could not follow link: " ++ e)
      ∈ (ls.foldl (processLink env b f true) st).events := by
  induction ls generalizing st with
  | nil => cases h
  | cons a t ih =>
    rcases List.mem_cons.mp h with rfl | h2
    · refine foldl_events_mem_mono env b f true t (processLink env b f true st l) _ ?_
      unfold processLink
      simp [hh, hnp, hfc, herr]
    · exact ih _ h2

/-- C6 counterexample: the original claim says every non-2xx primary status
fails the whole scan, but raise_for_status raises only for 4xx and 5xx.  A
final 304 response — a non-2xx status requests can return, since it never
follows a redirect for 304 — passes raise_for_status, and the scan runs to a
normal completion with no error event, refuting the claim at this input. -/
theorem primary_non2xx_not_fatal_counterexample :
    ¬ (200 ≤ (304 : Nat) ∧ (304 : Nat) ≤ 299)
    ∧ statusBad (HttpResponse.mk 304 [] "") = false
    ∧ runScan
        (FetchEnv.mk (fun b h => b ++ h)
          (fun _ => Except.ok (HttpResponse.mk 304 [] "")))
        "https://x.com" "" true
      = { found := [],
          events := [Event.log "Found 0 links on page", Event.complete []],
          subFetches := [] } := by
  refine ⟨by decide, by decide, ?_⟩
  decide

/-- C6 amended: when the primary fetch raises — a transport exception, or a
4xx/5xx status that raise_for_status turns into one (statuses outside 4xx
and 5xx, a final 3xx included, do not raise) — the whole scan fails: the
worker emits exactly one error event, no completion event, the result set
is empty, and no secondary fetch happens. -/
theorem primary_fetch_failure_aborts (env : FetchEnv) (url f : String) (fl : Bool)
    (h : (∃ e, env.fetch url = Except.error e)
       ∨ (∃ r, env.fetch url = Except.ok r ∧ statusBad r = true)) :
    ∃ m, runScan env url f fl =
      { found := [], events := [Event.error m], subFetches := [] } := by
  rcases h with ⟨e, he⟩ | ⟨r, hr, hb⟩
  · exact ⟨e, by simp [runScan, he]⟩
  · exact ⟨"HTTP error " ++ toString r.status, by simp [runScan, hr, raiseForStatus, hb]⟩

/-- C6 witness: a timing-out primary fetch. -/
theorem primary_fetch_failure_aborts_witness :
    (∃ e, (FetchEnv.mk (fun b h => b ++ h) (fun _ => Except.error "timeout")).fetch
        "https://x.com" = Except.error e)
    ∧ ∃ m, runScan (FetchEnv.mk (fun b h => b ++ h) (fun _ => Except.error "timeout"))
        "https://x.com" "" true =
        { found := [], events := [Event.error m], subFetches := [] } :=
  ⟨⟨"timeout", rfl⟩,
   primary_fetch_failure_aborts _ "https://x.com" "" true (Or.inl ⟨"timeout", rfl⟩)⟩

theorem processLink_subFetches_nofollow (env : FetchEnv) (b f : String)
    (st : ScanState) (l : Link) :
    (processLink env b f false st l).subFetches = st.subFetches := by
  unfold processLink
  split
  · rfl
  · dsimp only
    split
    · split <;> rfl
    · simp

theorem foldl_subFetches_nofollow (env : FetchEnv) (b f : String)
    (ls : List Link) (st : ScanState) :
    (ls.foldl (processLink env b f false) st).subFetches = st.subFetches := by
  induction ls generalizing st with
  | nil => rfl
  | cons a t ih =>
    rw [List.foldl_cons, ih, processLink_subFetches_nofollow]

/-- C9: with the follow-links toggle off the scan performs no secondary
fetch at all, whatever the page contains — keyword or pattern matches
included. -/
theorem no_follow_no_secondary_fetch (env : FetchEnv) (url f : String) :
    (runScan env url f false).subFetches = [] := by
  unfold runScan
  cases hf : env.fetch url with
  | error e => rfl
  | ok r0 =>
    dsimp only
    cases hr : raiseForStatus r0 with
    | error e => rfl
    | ok r =>
      dsimp only
      rw [foldl_subFetches_nofollow]

theorem runScan_success (env : FetchEnv) (url f : String) (fl : Bool)
    (r0 : HttpResponse) (hf : env.fetch url = Except.ok r0)
    (hst : statusBad r0 = false) :
    runScan env url f fl =
      { found := (r0.links.foldl (processLink env url f fl) (scanInit r0)).found,
        events := (r0.links.foldl (processLink env url f fl) (scanInit r0)).events
          ++ [Event.complete (r0.links.foldl (processLink env url f fl) (scanInit r0)).found],
        subFetches := (r0.links.foldl (processLink env url f fl) (scanInit r0)).subFetches } := by
  unfold runScan
  rw [hf]
  have hr : raiseForStatus r0 = Except.ok r0 := by simp [raiseForStatus, hst]
  dsimp only
  rw [hr]
  rfl

/-- C7: a fetch failure on one follow candidate is isolated: the scan still
ends in a completion event, the failure is only logged, no error event is
emitted, and PDFs found on the primary page and on other successfully
followed sub-pages are in the completed result set. -/
theorem subpage_failure_isolated (env : FetchEnv) (url f : String)
    (r0 : HttpResponse) (hfetch : env.fetch url = Except.ok r0)
    (hst : statusBad r0 = false)
    (lb : Link) (hlb : lb ∈ r0.links) (hlbh : lb.href ≠ "")
    (hlbnp : is_pdf_link (env.resolve url lb.href) lb.href = false)
    (hlbf : (isScriptLink lb || is_script_page lb.href) = true)
    (e : String) (hlberr : env.fetch (env.resolve url lb.href) = Except.error e)
    (lp : Link) (hlp : lp ∈ r0.links) (hlph : lp.href ≠ "")
    (hlppdf : is_pdf_link (env.resolve url lp.href) lp.href = true)
    (hlpm : matches_filter f (env.resolve url lp.href) (toLowerStr lp.text) = true)
    (lg : Link) (hlg : lg ∈ r0.links) (hlgh : lg.href ≠ "")
    (hlgnp : is_pdf_link (env.resolve url lg.href) lg.href = false)
    (hlgf : (isScriptLink lg || is_script_page lg.href) = true)
    (r2 : HttpResponse) (hlgok : env.fetch (env.resolve url lg.href) = Except.ok r2)
    (sl : Link) (hsl : sl ∈ r2.links) (hslh : sl.href ≠ "")
    (hslp : is_pdf_link (env.resolve (env.resolve url lg.href) sl.href) sl.href = true)
    (hslm : matches_filter f (env.resolve (env.resolve url lg.href) sl.href)
              (toLowerStr sl.text) = true) :
    ∃ rs, (runScan env url f true).events.getLast? = some (Event.complete rs)
      ∧ (extract_filename (env.resolve url lp.href), env.resolve url lp.href) ∈ rs
      ∧ (extract_filename (env.resolve (env.resolve url lg.href) sl.href),
         env.resolve (env.resolve url lg.href) sl.href) ∈ rs
      ∧ (∀ m, Event.error m ∉ (runScan env url f true).events)
      ∧ Event.log ("Could not follow link: " ++ e) ∈ (runScan env url f true).events := by
  have hrun := runScan_success env url f true r0 hfetch hst
  refine ⟨(r0.links.foldl (processLink env url f true) (scanInit r0)).found,
    ?_, ?_, ?_, ?_, ?_⟩
  · rw [hrun]
    exact List.getLast?_concat _
  · exact foldl_adds_pdf env url f true r0.links (scanInit r0) lp hlp hlph hlppdf hlpm
  · exact foldl_adds_sub env url f r0.links (scanInit r0) lg hlg hlgh hlgnp hlgf
      r2 hlgok sl hsl hslh hslp hslm
  · intro m hm
    rw [hrun] at hm
    dsimp only at hm
    rcases List.mem_append.mp hm with hx | hx
    · obtain ⟨es, he, hn⟩ := foldl_events_extend env url f true r0.links (scanInit r0)
      rw [he] at hx
      rcases List.mem_append.mp hx with hy | hy
      · simp [scanInit] at hy
      · exact hn m hy
    · simp at hx
  · rw [hrun]
    dsimp only
    refine List.mem_append_left _ ?_
    exact foldl_fail_log env url f r0.links (scanInit r0) lb e hlb hlbh hlbnp hlbf hlberr

/-- C10: a followed sub-page response with an error status is not treated as
a failure — its body is parsed anyway, and a qualifying PDF link in it ends
up in the completed result set while the scan finishes without any error
event. -/
theorem subpage_status_not_checked (env : FetchEnv) (url f : String)
    (r0 : HttpResponse) (hfetch : env.fetch url = Except.ok r0)
    (hst : statusBad r0 = false)
    (lb : Link) (hlb : lb ∈ r0.links) (hlbh : lb.href ≠ "")
    (hlbnp : is_pdf_link (env.resolve url lb.href) lb.href = false)
    (hlbf : (isScriptLink lb || is_script_page lb.href) = true)
    (r1 : HttpResponse) (hsub : env.fetch (env.resolve url lb.href) = Except.ok r1)
    (hbad : statusBad r1 = true)
    (sl : Link) (hsl : sl ∈ r1.links) (hslh : sl.href ≠ "")
    (hslp : is_pdf_link (env.resolve (env.resolve url lb.href) sl.href) sl.href = true)
    (hslm : matches_filter f (env.resolve (env.resolve url lb.href) sl.href)
              (toLowerStr sl.text) = true) :
    ∃ rs, (runScan env url f true).events.getLast? = some (Event.complete rs)
      ∧ (extract_filename (env.resolve (env.resolve url lb.href) sl.href),
         env.resolve (env.resolve url lb.href) sl.href) ∈ rs
      ∧ (∀ m, Event.error m ∉ (runScan env url f true).events) := by
  have hrun := runScan_success env url f true r0 hfetch hst
  refine ⟨(r0.links.foldl (processLink env url f true) (scanInit r0)).found, ?_, ?_, ?_⟩
  · rw [hrun]
    exact List.getLast?_concat _
  · exact foldl_adds_sub env url f r0.links (scanInit r0) lb hlb hlbh hlbnp hlbf
      r1 hsub sl hsl hslh hslp hslm
  · intro m hm
    rw [hrun] at hm
    dsimp only at hm
    rcases List.mem_append.mp hm with hx | hx
    · obtain ⟨es, he, hn⟩ := foldl_events_extend env url f true r0.links (scanInit r0)
      rw [he] at hx
      rcases List.mem_append.mp hx with hy | hy
      · simp [scanInit] at hy
      · exact hn m hy
    · simp at hx

/-- C7 witness: a primary page with one direct PDF, one follow candidate
whose fetch fails, and one follow candidate whose sub-page holds a PDF. -/
theorem subpage_failure_isolated_witness :
    ∃ rs,
      (runScan
        (FetchEnv.mk (fun b h => b ++ h)
          (fun u =>
            if u = "https://s.com" then
              Except.ok (HttpResponse.mk 200
                [Link.mk "/a.pdf" "x", Link.mk "/script/bad" "script",
                 Link.mk "/script/good" "script"] "")
            else if u = "https://s.com/script/good" then
              Except.ok (HttpResponse.mk 200 [Link.mk "/b.pdf" "y"] "")
            else Except.error "boom"))
        "https://s.com" "" true).events.getLast? = some (Event.complete rs)
      ∧ (extract_filename ("https://s.com" ++ "/a.pdf"), "https://s.com" ++ "/a.pdf") ∈ rs
      ∧ (extract_filename ("https://s.com" ++ "/script/good" ++ "/b.pdf"),
         "https://s.com" ++ "/script/good" ++ "/b.pdf") ∈ rs
      ∧ (∀ m, Event.error m ∉
          (runScan
            (FetchEnv.mk (fun b h => b ++ h)
              (fun u =>
                if u = "https://s.com" then
                  Except.ok (HttpResponse.mk 200
                    [Link.mk "/a.pdf" "x", Link.mk "/script/bad" "script",
                     Link.mk "/script/good" "script"] "")
                else if u = "https://s.com/script/good" then
                  Except.ok (HttpResponse.mk 200 [Link.mk "/b.pdf" "y"] "")
                else Except.error "boom"))
            "https://s.com" "" true).events)
      ∧ Event.log ("Could not follow link: " ++ "boom") ∈
          (runScan
            (FetchEnv.mk (fun b h => b ++ h)
              (fun u =>
                if u = "https://s.com" then
                  Except.ok (HttpResponse.mk 200
                    [Link.mk "/a.pdf" "x", Link.mk "/script/bad" "script",
                     Link.mk "/script/good" "script"] "")
                else if u = "https://s.com/script/good" then
                  Except.ok (HttpResponse.mk 200 [Link.mk "/b.pdf" "y"] "")
                else Except.error "boom"))
            "https://s.com" "" true).events :=
  subpage_failure_isolated
    (FetchEnv.mk (fun b h => b ++ h)
      (fun u =>
        if u = "https://s.com" then
          Except.ok (HttpResponse.mk 200
            [Link.mk "/a.pdf" "x", Link.mk "/script/bad" "script",
             Link.mk "/script/good" "script"] "")
        else if u = "https://s.com/script/good" then
          Except.ok (HttpResponse.mk 200 [Link.mk "/b.pdf" "y"] "")
        else Except.error "boom"))
    "https://s.com" ""
    (HttpResponse.mk 200
      [Link.mk "/a.pdf" "x", Link.mk "/script/bad" "script",
       Link.mk "/script/good" "script"] "")
    rfl (by decide)
    (Link.mk "/script/bad" "script") (by decide) (by decide) (by decide) (by decide)
    "boom" rfl
    (Link.mk "/a.pdf" "x") (by decide) (by decide) (by decide) (by decide)
    (Link.mk "/script/good" "script") (by decide) (by decide) (by decide) (by decide)
    (HttpResponse.mk 200 [Link.mk "/b.pdf" "y"] "") rfl
    (Link.mk "/b.pdf" "y") (by decide) (by decide) (by decide) (by decide)

/-- C10 witness: a followed sub-page answering 404 whose body still holds a
PDF link that reaches the result set. -/
theorem subpage_status_not_checked_witness :
    ∃ rs,
      (runScan
        (FetchEnv.mk (fun b h => b ++ h)
          (fun u =>
            if u = "https://a.com" then
              Except.ok (HttpResponse.mk 200 [Link.mk "/script/foo" "script"] "")
            else if u = "https://a.com/script/foo" then
              Except.ok (HttpResponse.mk 404 [Link.mk "/files/x.pdf" "x"] "")
            else Except.error "nope"))
        "https://a.com" "" true).events.getLast? = some (Event.complete rs)
      ∧ (extract_filename ("https://a.com" ++ "/script/foo" ++ "/files/x.pdf"),
         "https://a.com" ++ "/script/foo" ++ "/files/x.pdf") ∈ rs
      ∧ (∀ m, Event.error m ∉
          (runScan
            (FetchEnv.mk (fun b h => b ++ h)
              (fun u =>
                if u = "https://a.com" then
                  Except.ok (HttpResponse.mk 200 [Link.mk "/script/foo" "script"] "")
                else if u = "https://a.com/script/foo" then
                  Except.ok (HttpResponse.mk 404 [Link.mk "/files/x.pdf" "x"] "")
                else Except.error "nope"))
            "https://a.com" "" true).events) :=
  subpage_status_not_checked
    (FetchEnv.mk (fun b h => b ++ h)
      (fun u =>
        if u = "https://a.com" then
          Except.ok (HttpResponse.mk 200 [Link.mk "/script/foo" "script"] "")
        else if u = "https://a.com/script/foo" then
          Except.ok (HttpResponse.mk 404 [Link.mk "/files/x.pdf" "x"] "")
        else Except.error "nope"))
    "https://a.com" ""
    (HttpResponse.mk 200 [Link.mk "/script/foo" "script"] "")
    rfl (by decide)
    (Link.mk "/script/foo" "script") (by decide) (by decide) (by decide) (by decide)
    (HttpResponse.mk 404 [Link.mk "/files/x.pdf" "x"] "") rfl (by decide)
    (Link.mk "/files/x.pdf" "x") (by decide) (by decide) (by decide) (by decide)

theorem strAppend_data (s t : String) : (s ++ t).data = s.data ++ t.data := rfl

theorem joinPath_right_inj (dir a b : String) (h : joinPath dir a = joinPath dir b) :
    a = b := by
  unfold joinPath at h
  have hd := congrArg String.data h
  rw [strAppend_data, strAppend_data] at hd
  have h2 := List.append_cancel_left hd
  cases a
  cases b
  exact congrArg String.mk h2

/-- C8: two download items carrying the same filename into an empty
directory, both fetches succeeding, write two distinct files — the plain
name holding the first body and the suffixed name holding the second — and
the final summary reports 2 successes of 2. -/
theorem duplicate_filename_two_files (env : FetchEnv) (dir u1 u2 : String)
    (r1 r2 : HttpResponse)
    (h1 : env.fetch u1 = Except.ok r1) (hb1 : statusBad r1 = false)
    (h2 : env.fetch u2 = Except.ok r2) (hb2 : statusBad r2 = false) :
    (runDownload env [(0, "draft.pdf", u1), (1, "draft.pdf", u2)] dir).fs
      = [(joinPath dir "draft.pdf", r1.content), (joinPath dir "draft_1.pdf", r2.content)]
    ∧ downloadSummary env [(0, "draft.pdf", u1), (1, "draft.pdf", u2)] dir = (2, 2) := by
  have hname : ("draft" ++ "_" ++ toString 1 ++ ".pdf" : String) = "draft_1.pdf" := by decide
  have hsplit : splitext "draft.pdf" = ("draft", ".pdf") := by decide
  have hstep1 : dlStep env dir { fs := [], statuses := [], success := 0 } (0, "draft.pdf", u1)
      = { fs := [(joinPath dir "draft.pdf", r1.content)],
          statuses := [(0, "Downloading..."), (0, "Downloaded")], success := 1 } := by
    simp only [dlStep, h1, hb1]
    simp [resolvePath]
  have hne : joinPath dir "draft_1.pdf" ≠ joinPath dir "draft.pdf" := by
    intro h
    have h3 := joinPath_right_inj dir _ _ h
    exact absurd h3 (by decide)
  have hstep2 : dlStep env dir
      { fs := [(joinPath dir "draft.pdf", r1.content)],
        statuses := [(0, "Downloading..."), (0, "Downloaded")], success := 1 }
      (1, "draft.pdf", u2)
      = { fs := [(joinPath dir "draft.pdf", r1.content),
                 (joinPath dir "draft_1.pdf", r2.content)],
          statuses := [(0, "Downloading..."), (0, "Downloaded"),
            (1, "Downloading..."), (1, "Downloaded")], success := 2 } := by
    simp only [dlStep, h2, hb2]
    simp only [resolvePath, List.map_cons, List.map_nil]
    rw [if_pos (List.mem_singleton.mpr rfl)]
    simp only [hsplit, List.length_cons, List.length_nil]
    simp only [freePath, hname]
    rw [if_neg (fun hmem => hne (List.mem_singleton.mp hmem))]
    simp
  constructor
  · show (List.foldl (dlStep env dir) { fs := [], statuses := [], success := 0 }
      [(0, "draft.pdf", u1), (1, "draft.pdf", u2)]).fs = _
    rw [List.foldl_cons, hstep1, List.foldl_cons, hstep2, List.foldl_nil]
  · show ((List.foldl (dlStep env dir) { fs := [], statuses := [], success := 0 }
      [(0, "draft.pdf", u1), (1, "draft.pdf", u2)]).success, 2) = (2, 2)
    rw [List.foldl_cons, hstep1, List.foldl_cons, hstep2, List.foldl_nil]

/-- C8 witness: a concrete batch of two identical filenames. -/
theorem duplicate_filename_two_files_witness :
    (runDownload
      (FetchEnv.mk (fun b h => b ++ h)
        (fun u =>
          if u = "u1" then Except.ok (HttpResponse.mk 200 [] "AAA")
          else Except.ok (HttpResponse.mk 200 [] "BBB")))
      [(0, "draft.pdf", "u1"), (1, "draft.pdf", "u2")] "dl").fs
      = [(joinPath "dl" "draft.pdf", "AAA"), (joinPath "dl" "draft_1.pdf", "BBB")]
    ∧ downloadSummary
        (FetchEnv.mk (fun b h => b ++ h)
          (fun u =>
            if u = "u1" then Except.ok (HttpResponse.mk 200 [] "AAA")
            else Except.ok (HttpResponse.mk 200 [] "BBB")))
        [(0, "draft.pdf", "u1"), (1, "draft.pdf", "u2")] "dl" = (2, 2) :=
  duplicate_filename_two_files
    (FetchEnv.mk (fun b h => b ++ h)
      (fun u =>
        if u = "u1" then Except.ok (HttpResponse.mk 200 [] "AAA")
        else Except.ok (HttpResponse.mk 200 [] "BBB")))
    "dl" "u1" "u2" (HttpResponse.mk 200 [] "AAA") (HttpResponse.mk 200 [] "BBB")
    rfl (by decide) rfl (by decide)
